import Mathlib

/-!
Shallow embedding of the conversational-commerce bot in
`src/webhook/dyes_server.js` (the `handleIncomingMessage` dialog engine, the
in-memory product catalog, and the response-builder helpers).  Pure JS string
operations are modelled on `List Char`; the WhatsApp send calls are modelled
as an ordered list of outbound messages returned by the handler.
-/

namespace Dyes

/-- Prefix test on character lists (semantics of JS `String.prototype.startsWith`). -/
def prefixOf : List Char → List Char → Bool
  | [], _ => true
  | _ :: _, [] => false
  | a :: as, b :: bs => a == b && prefixOf as bs

/-- Substring test on character lists: JS `String.prototype.includes`;
the empty needle occurs in every string. -/
def infixOf (sub : List Char) : List Char → Bool
  | [] => sub.isEmpty
  | c :: cs => prefixOf sub (c :: cs) || infixOf sub cs

/-- JS `s.includes(sub)`. -/
def jsIncludes (s sub : String) : Bool := infixOf sub.data s.data

/-- JS `s.startsWith(pre)`. -/
def jsStartsWith (s pre : String) : Bool := prefixOf pre.data s.data

/-- Drop the first `n` characters (used to model `replace('category_','')`
and `replace('product_','')` on strings that start with that prefix). -/
def dropStr (s : String) (n : Nat) : String := ⟨s.data.drop n⟩

/-- ASCII lowercase of one character (JS `toLowerCase` on the ASCII range,
the only range occurring in the catalog and command tokens). -/
def lcChar (c : Char) : Char :=
  if 'A' ≤ c ∧ c ≤ 'Z' then Char.ofNat (c.toNat + 32) else c

/-- JS `s.toLowerCase()` (ASCII). -/
def lcStr (s : String) : String := ⟨s.data.map lcChar⟩

/-- ASCII uppercase of one character. -/
def ucChar (c : Char) : Char :=
  if 'a' ≤ c ∧ c ≤ 'z' then Char.ofNat (c.toNat - 32) else c

/-- JS `s.charAt(0).toUpperCase() + s.slice(1)` from `getProductCategories`. -/
def capitalize (s : String) : String :=
  match s.data with
  | [] => ""
  | c :: cs => ⟨ucChar c :: cs⟩

/-- A product record of the inline catalog literal (lines 106-244 of
`dyes_server.js`). -/
structure Product where
  id : String
  name : String
  type : String
  category : String
  application : String
  packaging : String
  price : Nat
  moq : String
  description : String
  cas : String
  inStock : Bool
deriving DecidableEq, Repr

/-- The sample catalog, in JS object-literal insertion order. -/
def products : List Product := [
  ⟨"dye-001", "Reactive Red 120", "Reactive Dye", "reactive", "Cotton, Silk, Wool",
    "25 kg HDPE drums", 1250, "100 kg",
    "High-quality reactive dye with excellent wash fastness and bright shade.",
    "61951-82-4", true⟩,
  ⟨"dye-002", "Reactive Blue 19", "Reactive Dye", "reactive", "Cotton, Silk, Wool",
    "25 kg HDPE drums", 1350, "100 kg",
    "Brilliant blue reactive dye with high fixation rate and color stability.",
    "2580-78-1", true⟩,
  ⟨"dye-003", "Reactive Yellow 86", "Reactive Dye", "reactive", "Cotton, Silk, Wool",
    "25 kg HDPE drums", 1150, "100 kg",
    "Vibrant yellow reactive dye with excellent light fastness properties.",
    "61951-86-8", true⟩,
  ⟨"dye-004", "Direct Black 38", "Direct Dye", "direct", "Paper, Leather",
    "20 kg bags", 950, "80 kg",
    "Deep black direct dye with good light fastness for paper and leather applications.",
    "1937-37-7", true⟩,
  ⟨"dye-005", "Direct Red 81", "Direct Dye", "direct", "Paper, Leather",
    "20 kg bags", 1050, "80 kg",
    "Bright red direct dye with excellent solubility and even dyeing properties.",
    "2610-11-9", true⟩,
  ⟨"dye-006", "Acid Blue 9", "Acid Dye", "acid", "Nylon, Wool, Silk",
    "15 kg cartons", 1550, "60 kg",
    "Brilliant blue acid dye for protein fibers with excellent leveling properties.",
    "3844-45-9", true⟩,
  ⟨"dye-007", "Acid Red 52", "Acid Dye", "acid", "Nylon, Wool, Silk",
    "15 kg cartons", 1650, "60 kg",
    "Bright red acid dye with high tinting strength and good light fastness.",
    "3520-42-1", false⟩,
  ⟨"int-001", "H-Acid", "Dye Intermediate", "intermediate",
    "Manufacturing of acid and reactive dyes", "25 kg fiber drums", 2250, "100 kg",
    "Key intermediate for synthesis of various acid and reactive dyes.",
    "90-20-0", true⟩,
  ⟨"int-002", "J-Acid", "Dye Intermediate", "intermediate",
    "Manufacturing of acid and reactive dyes", "25 kg fiber drums", 2150, "100 kg",
    "Essential intermediate for production of blue and navy dyes.",
    "92-70-6", true⟩,
  ⟨"int-003", "Benzidine Intermediate", "Chemical Intermediate", "intermediate",
    "Dye manufacturing", "200 kg steel drums", 850, "500 kg",
    "Used in the synthesis of direct dyes.",
    "92-87-5", true⟩]

/-- `products[productId]` of the JS object: first (unique) record with that id. -/
def findProduct (pid : String) : Option Product :=
  products.find? (fun p => p.id == pid)

/-- Placeholder record; only produced under guards that exclude it. -/
def defaultProduct : Product := ⟨"", "", "", "", "", "", 0, "", "", "", false⟩

/-- A row of a WhatsApp list message section. -/
structure LRow where
  id : String
  title : String
  descr : String
deriving DecidableEq, Repr

/-- A section of a WhatsApp list message. -/
structure LSection where
  title : String
  rows : List LRow
deriving DecidableEq, Repr

/-- A reply button of a WhatsApp interactive button message. -/
structure Btn where
  id : String
  title : String
deriving DecidableEq, Repr

/-- Outbound message: `sendTextMessage`, `sendInteractiveMessage` (buttons),
or `sendListMessage` payloads. -/
inductive Out where
  | text (body : String)
  | buttons (header body : String) (btns : List Btn)
  | list (header body : String) (sections : List LSection)
deriving DecidableEq, Repr

/-- Largest row count over the sections of a list message (0 for non-lists). -/
def Out.maxRows : Out → Nat
  | .list _ _ secs => (secs.map (fun sec => sec.rows.length)).foldr max 0
  | _ => 0

/-- Button count of a button message (0 for the other variants). -/
def Out.btnCount : Out → Nat
  | .buttons _ _ bs => bs.length
  | _ => 0

/-- An entry of `getProductCategories`: object key, display name, description. -/
structure CatEntry where
  key : String
  name : String
  descr : String
deriving DecidableEq, Repr

/-- `getProductCategories`: group catalog entries by category in first-seen
order; display name is the capitalized key, description the first type. -/
def getProductCategories : List CatEntry :=
  products.foldl
    (fun acc p =>
      if acc.any (fun c => c.key == p.category) then acc
      else acc ++ [⟨p.category, capitalize p.category, p.type⟩]) []

/-- `getProductsByCategory`: filter by exact category match; a `none`
category (JS `undefined`) matches nothing. -/
def getProductsByCategory : Option String → List Product
  | none => []
  | some k => products.filter (fun p => p.category == k)

/-- `formatProductDetails`. -/
def formatProductDetails (p : Product) : String :=
  "*" ++ p.name ++ "*\n\n" ++
  "*Type:* " ++ p.type ++ "\n" ++
  "*Application:* " ++ p.application ++ "\n" ++
  "*Packaging:* " ++ p.packaging ++ "\n" ++
  "*Price:* $" ++ toString p.price ++ " per unit\n" ++
  "*MOQ:* " ++ p.moq ++ "\n" ++
  "*CAS:* " ++ p.cas ++ "\n" ++
  "*Availability:* " ++ (if p.inStock then "✅ In Stock" else "❌ Out of Stock") ++ "\n\n" ++
  "*Description:* " ++ p.description

/-- A cart entry: `{id, name, price, quantity}` pushed by `add_to_cart`. -/
structure CartItem where
  id : String
  name : String
  price : Nat
  quantity : Nat
deriving DecidableEq, Repr

/-- The product ids currently in a cart, in display order. -/
def cartIds (c : List CartItem) : List String := c.map (fun i => i.id)

/-- A user session: `context`, `cart`, `currentCategory`, `lastProductViewed`
(the clock-valued `lastInteraction` field is carried by `SessionT` below). -/
structure Session where
  context : String
  cart : List CartItem
  currentCategory : Option String
  lastProductViewed : Option String
deriving DecidableEq, Repr

/-- A fresh session as initialized on the first inbound event. -/
def initialSession : Session := ⟨"welcome", [], none, none⟩

/-- Session including the `lastInteraction` timestamp. -/
structure SessionT extends Session where
  lastInteraction : Nat
deriving DecidableEq, Repr

/-- Modelled from the spec: the injectable stub supplying the current clock
reading and the fabricated order-tracking status and delivery date that the
JS code draws from `Date.now()`, `Math.random()` and `Date#toDateString`. -/
structure Oracle where
  now : Nat
  status : String
  delivery : String
deriving DecidableEq, Repr

/-- A fixed oracle instance for concrete evaluations. -/
def o0 : Oracle := ⟨0, "Processing", "Mon Jan 01 2024"⟩

/-- `sendWelcomeMenu`: a text followed by the five-option main list. -/
def sendWelcomeMenu : List Out :=
  [.text "Welcome to Dyes & Intermediates Bot! How can I assist you today? Select an option:",
   .list "🎨 Welcome to Dyes & Intermediates Bot!"
     "How can I assist you today? Select an option:"
     [⟨"Main Options",
       [⟨"browse_products", "Browse Products", "View our range of dyes and intermediates"⟩,
        ⟨"search_products", "Search Products", "Find specific products"⟩,
        ⟨"request_quote", "Request Quote", "Get pricing for bulk orders"⟩,
        ⟨"track_order", "Track Order", "Check status of your order"⟩,
        ⟨"contact_support", "Contact Support", "Talk to our sales team"⟩]⟩]]

/-- `sendCategoryMenu`. -/
def sendCategoryMenu : List Out :=
  [.list "Product Categories" "Select a category to browse products:"
    [⟨"Product Categories",
      getProductCategories.map (fun c => ⟨"category_" ++ c.key, c.name, c.descr⟩)⟩]]

/-- `sendProductActionButtons`; the extra `view_cart` button is appended when
called with `additionalAction = 'view_cart'`. -/
def sendProductActionButtons (extra : Bool) : List Out :=
  [.buttons "Product Actions" "What would you like to do next?"
    ([⟨"add_to_cart", "Add to Cart"⟩, ⟨"request_quote", "Request Quote"⟩,
      ⟨"back_to_products", "Back to Products"⟩] ++
     (if extra then [⟨"view_cart", "View Cart"⟩] else []))]

/-- `sendProductListByCategory`: a notice plus the category menu when the
category is empty, otherwise the product rows with a trailing back row. -/
def sendProductListByCategory (c : Option String) : List Out :=
  match getProductsByCategory c with
  | [] => Out.text "No products found in this category." :: sendCategoryMenu
  | p0 :: rest =>
    [.list p0.type "Select a product to view details:"
      [⟨"Products",
        ((p0 :: rest).map (fun p =>
          (⟨"product_" ++ p.id, p.name,
            p.type ++ " - " ++ (if p.inStock then "In Stock" else "Out of Stock")⟩ : LRow))) ++
        [⟨"back_to_categories", "Back to Categories", "Return to category list"⟩]⟩]]

/-- `sendProductDetails`: detail text then the action prompt (no cart button). -/
def sendProductDetails (p : Product) : List Out :=
  Out.text (formatProductDetails p) :: sendProductActionButtons false

/-- Sum of `price * quantity` over the cart (the `total` accumulator). -/
def cartTotal (cart : List CartItem) : Nat :=
  (cart.map (fun it => it.price * it.quantity)).sum

/-- The cart summary text built by `sendCartSummary`. -/
def cartText (cart : List CartItem) : String :=
  "*Your Cart*\n\n" ++
  String.join (cart.enum.map (fun e =>
    toString (e.1 + 1) ++ ". " ++ e.2.name ++ " x " ++ toString e.2.quantity ++
    " = $" ++ toString (e.2.price * e.2.quantity) ++ "\n")) ++
  "\n*Total: $" ++ toString (cartTotal cart) ++ "*"

/-- `sendCartSummary`. -/
def sendCartSummary (s : Session) : List Out :=
  if s.cart.isEmpty then
    Out.text "Your cart is empty." :: sendWelcomeMenu
  else
    [.text (cartText s.cart),
     .buttons "Cart Actions" "What would you like to do next?"
       [⟨"checkout", "Checkout"⟩, ⟨"clear_cart", "Clear Cart"⟩,
        ⟨"continue_shopping", "Continue Shopping"⟩]]

/-- `sendSearchResults`: slice to the first 10 results, then append the
main-menu row. -/
def sendSearchResults (results : List Product) : List Out :=
  [.list "Search Results" "Select a product to view details:"
    [⟨"Search Results",
      ((if results.length > 10 then results.take 10 else results).map (fun p =>
        (⟨"product_" ++ p.id, p.name,
          p.type ++ " - " ++ (if p.inStock then "In Stock" else "Out of Stock")⟩ : LRow))) ++
      [⟨"main_menu", "Back to Main Menu", "Return to main menu"⟩]⟩]]

/-- The greeting test of the welcome branch: the lowercased message contains
`hi`, `hello` or `start` as a substring anywhere. -/
def greetingHit (t : String) : Bool :=
  jsIncludes t "hi" || jsIncludes t "hello" || jsIncludes t "start"

/-- The Searching-state query filter (lines 483-487): case-insensitive
substring match against `name`, `type` and (when present) `description`. -/
def searchingFilter (q : String) : List Product :=
  products.filter (fun p =>
    jsIncludes (lcStr p.name) q || jsIncludes (lcStr p.type) q ||
    (p.description != "" && jsIncludes (lcStr p.description) q))

/-- The fallback direct-search filter (lines 500-504): substring match
against `name`, `type` and (when present, not lowercased) `cas`. -/
def directFilter (q : String) : List Product :=
  products.filter (fun p =>
    jsIncludes (lcStr p.name) q || jsIncludes (lcStr p.type) q ||
    (p.cas != "" && jsIncludes p.cas q))

/-- The guard of the fallback direct search (line 499): non-empty text that
is not the bare word `hi` or `hello`. -/
def directGuard (t : String) : Bool :=
  t != "" && t != "hi" && t != "hello"

/-- `add_to_cart` cart update: JS `find` returns the first entry with the
product id and its quantity is incremented; otherwise a fresh entry with
quantity 1 is pushed. -/
def incFirst : List CartItem → String → List CartItem
  | [], _ => []
  | i :: rest, pid =>
    if i.id == pid then { i with quantity := i.quantity + 1 } :: rest
    else i :: incFirst rest pid

/-- The cart mutation of the `add_to_cart` branch (lines 429-439). -/
def addToCart (cart : List CartItem) (p : Product) : List CartItem :=
  match cart.find? (fun i => i.id == p.id) with
  | some _ => incFirst cart p.id
  | none => cart ++ [⟨p.id, p.name, p.price, 1⟩]

/-- The contact-support sub-menu prompt (lines 515-520). -/
def supportPrompt : List Out :=
  [.buttons "Contact Support" "How can our team help you today?"
    [⟨"sales_inquiry", "Sales Inquiry"⟩, ⟨"technical_support", "Technical Support"⟩,
     ⟨"main_menu", "Back to Main Menu"⟩]]

/-- The body of `handleIncomingMessage` after the `messageText`
normalization: one guarded branch per JS `if`/`else if`, in source order;
falling off a JS block without `return` corresponds to taking the next
branch of this chain.  Returns the updated session (without the timestamp)
and the ordered outbound messages. -/
def handle (o : Oracle) (s : Session) (t : String) : Session × List Out :=
  if t = "reset" ∨ t = "restart" then
    ({ s with context := "welcome" },
      Out.text "I've reset our conversation. How can I help you today?" :: sendWelcomeMenu)
  else if greetingHit t = true ∨ t = "main_menu" ∨ s.context = "welcome" then
    (s, sendWelcomeMenu)
  else if t = "browse_products" then
    ({ s with context := "browsing_categories" }, sendCategoryMenu)
  else if s.context = "browsing_categories" ∧ jsStartsWith t "category_" = true then
    ({ s with context := "browsing_products", currentCategory := some (dropStr t 9) },
      sendProductListByCategory (some (dropStr t 9)))
  else if s.context = "browsing_products" ∧ jsStartsWith t "product_" = true ∧
      (findProduct (dropStr t 8)).isSome = true then
    -- the guard ensures the lookup succeeds, so the default is never produced
    ({ s with
        context := "viewing_product",
        lastProductViewed := some (((findProduct (dropStr t 8)).getD defaultProduct).id) },
      sendProductDetails ((findProduct (dropStr t 8)).getD defaultProduct))
  else if s.context = "browsing_products" ∧ jsStartsWith t "product_" = false ∧
      t = "back_to_categories" then
    ({ s with context := "browsing_categories" }, sendCategoryMenu)
  else if s.context = "viewing_product" ∧ t = "add_to_cart" ∧
      s.lastProductViewed.getD "" ≠ "" ∧
      (findProduct (s.lastProductViewed.getD "")).isSome = true then
    ({ s with cart := addToCart s.cart ((findProduct (s.lastProductViewed.getD "")).getD defaultProduct) },
      Out.text ("Added " ++ ((findProduct (s.lastProductViewed.getD "")).getD defaultProduct).name ++ " to your cart.") ::
        sendProductActionButtons true)
  else if s.context = "viewing_product" ∧ t = "request_quote" then
    ({ s with context := "requesting_quote" },
      [.text "Please provide your contact details and quantity requirements, and our sales team will get back to you with a quote within 24 hours."])
  else if s.context = "viewing_product" ∧ t = "back_to_products" then
    ({ s with context := "browsing_products" },
      sendProductListByCategory s.currentCategory)
  else if s.context = "viewing_product" ∧ t = "view_cart" then
    (s, sendCartSummary s)
  else if t = "view_cart" then
    (s, sendCartSummary s)
  else if t = "checkout" then
    if s.cart.length > 0 then
      ({ s with context := "checkout" },
        [.text "Please provide your shipping details (name, address, email) to proceed with your order."])
    else
      (s, Out.text "Your cart is empty. Browse our products to add items to your cart." :: sendWelcomeMenu)
  else if t = "clear_cart" then
    ({ s with cart := [] },
      Out.text "Your cart has been cleared." :: sendWelcomeMenu)
  else if t = "continue_shopping" then
    ({ s with context := "browsing_categories" }, sendCategoryMenu)
  else if t = "search_products" then
    ({ s with context := "searching" },
      [.text "Please type the name or type of product you're looking for."])
  else if s.context = "searching" then
    if (searchingFilter t).length > 0 then
      (s, Out.text ("Found " ++ toString (searchingFilter t).length ++ " products matching your search:") ::
        sendSearchResults (searchingFilter t))
    else
      (s, Out.text "No products found matching your search. Please try different keywords." ::
        sendWelcomeMenu)
  else if directGuard t = true ∧ (directFilter t).length > 0 then
    (s, Out.text ("Found " ++ toString (directFilter t).length ++ " products matching your search:") ::
      sendSearchResults (directFilter t))
  else if t = "contact_support" then
    ({ s with context := "contacting_support" }, supportPrompt)
  else if s.context = "contacting_support" ∧ t = "sales_inquiry" then
    (s, Out.text "Please provide details about your inquiry and our sales team will contact you within 24 hours. You can also reach us at sales@dyescompany.com or +1-555-123-4567." ::
      sendWelcomeMenu)
  else if s.context = "contacting_support" ∧ t = "technical_support" then
    (s, Out.text "For technical assistance with our products, please describe your issue in detail. Our technical team will respond within 48 hours. For urgent matters, call our technical hotline at +1-555-987-6543." ::
      sendWelcomeMenu)
  else if t = "track_order" then
    ({ s with context := "tracking_order" },
      [.text "Please enter your order number to track its status."])
  else if s.context = "tracking_order" then
    (s, Out.text ("Order #" ++ t ++ "\n\nStatus: " ++ o.status ++
        "\nEstimated Delivery: " ++ o.delivery ++ "\n\nThank you for your business!") ::
      sendWelcomeMenu)
  else if t = "request_quote" then
    ({ s with context := "requesting_quote" },
      [.text "Please provide the following information for a quote:\n\n1. Product name/code\n2. Quantity required\n3. Delivery location\n4. Your contact information\n\nOur team will prepare a custom quote for you within 24 hours."])
  else if s.context = "welcome" ∨ s.context = "" then
    (s, sendWelcomeMenu)
  else
    (s, [])

/-- An inbound platform event: optional text body, optional tapped-button
id, optional tapped-list-row id. -/
structure Inbound where
  textBody : Option String
  buttonId : Option String
  listId : Option String
deriving DecidableEq, Repr

/-- JS `a || b` on an optional string, where the empty string is falsy. -/
def jsOrStr (a : Option String) (b : String) : String :=
  match a with
  | some s => if s = "" then b else s
  | none => b

/-- The `messageText` normalization (lines 364-366): lowercased text body,
else lowercased button-reply id, else lowercased list-reply id, else empty. -/
def normalize (m : Inbound) : String :=
  jsOrStr (m.textBody.map lcStr)
    (jsOrStr (m.buttonId.map lcStr) (jsOrStr (m.listId.map lcStr) ""))

/-- One dialog step on a raw inbound event. -/
def handleInbound (o : Oracle) (s : Session) (m : Inbound) : Session × List Out :=
  handle o s (normalize m)

/-- One dialog step on the timestamped session: `lastInteraction` is set to
the current clock reading on every inbound event. -/
def handleTimed (o : Oracle) (st : SessionT) (m : Inbound) : SessionT × List Out :=
  (⟨(handleInbound o st.toSession m).1, o.now⟩, (handleInbound o st.toSession m).2)

/-- Fold a sequence of inbound events (each with its oracle reading) through
the dialog engine, keeping only the session. -/
def runEvents (evs : List (Oracle × Inbound)) (s : Session) : Session :=
  evs.foldl (fun s e => (handleInbound e.1 s e.2).1) s

/-- Fold a sequence of already-normalized tokens through the dialog engine. -/
def runStrs (evs : List (Oracle × String)) (s : Session) : Session :=
  evs.foldl (fun s e => (handle e.1 s e.2).1) s

/-! ## Helper lemmas -/

set_option maxHeartbeats 1000000

/-- The oracle (clock, tracking status, delivery date) influences nothing
unless the session is in the order-tracking state. -/
theorem handle_oracle_irrel (o1 o2 : Oracle) (s : Session) (t : String)
    (h : s.context ≠ "tracking_order") : handle o1 s t = handle o2 s t := by
  unfold handle
  by_cases h1 : t = "reset" ∨ t = "restart"
  · rw [if_pos h1, if_pos h1]
  rw [if_neg h1, if_neg h1]
  by_cases h2 : greetingHit t = true ∨ t = "main_menu" ∨ s.context = "welcome"
  · rw [if_pos h2, if_pos h2]
  rw [if_neg h2, if_neg h2]
  by_cases h3 : t = "browse_products"
  · rw [if_pos h3, if_pos h3]
  rw [if_neg h3, if_neg h3]
  by_cases h4 : s.context = "browsing_categories" ∧ jsStartsWith t "category_" = true
  · rw [if_pos h4, if_pos h4]
  rw [if_neg h4, if_neg h4]
  by_cases h5 : s.context = "browsing_products" ∧ jsStartsWith t "product_" = true ∧ (findProduct (dropStr t 8)).isSome = true
  · rw [if_pos h5, if_pos h5]
  rw [if_neg h5, if_neg h5]
  by_cases h6 : s.context = "browsing_products" ∧ jsStartsWith t "product_" = false ∧ t = "back_to_categories"
  · rw [if_pos h6, if_pos h6]
  rw [if_neg h6, if_neg h6]
  by_cases h7 : s.context = "viewing_product" ∧ t = "add_to_cart" ∧ s.lastProductViewed.getD "" ≠ "" ∧ (findProduct (s.lastProductViewed.getD "")).isSome = true
  · rw [if_pos h7, if_pos h7]
  rw [if_neg h7, if_neg h7]
  by_cases h8 : s.context = "viewing_product" ∧ t = "request_quote"
  · rw [if_pos h8, if_pos h8]
  rw [if_neg h8, if_neg h8]
  by_cases h9 : s.context = "viewing_product" ∧ t = "back_to_products"
  · rw [if_pos h9, if_pos h9]
  rw [if_neg h9, if_neg h9]
  by_cases h10 : s.context = "viewing_product" ∧ t = "view_cart"
  · rw [if_pos h10, if_pos h10]
  rw [if_neg h10, if_neg h10]
  by_cases h11 : t = "view_cart"
  · rw [if_pos h11, if_pos h11]
  rw [if_neg h11, if_neg h11]
  by_cases h12 : t = "checkout"
  · rw [if_pos h12, if_pos h12]
  rw [if_neg h12, if_neg h12]
  by_cases h13 : t = "clear_cart"
  · rw [if_pos h13, if_pos h13]
  rw [if_neg h13, if_neg h13]
  by_cases h14 : t = "continue_shopping"
  · rw [if_pos h14, if_pos h14]
  rw [if_neg h14, if_neg h14]
  by_cases h15 : t = "search_products"
  · rw [if_pos h15, if_pos h15]
  rw [if_neg h15, if_neg h15]
  by_cases h16 : s.context = "searching"
  · rw [if_pos h16, if_pos h16]
  rw [if_neg h16, if_neg h16]
  by_cases h17 : directGuard t = true ∧ (directFilter t).length > 0
  · rw [if_pos h17, if_pos h17]
  rw [if_neg h17, if_neg h17]
  by_cases h18 : t = "contact_support"
  · rw [if_pos h18, if_pos h18]
  rw [if_neg h18, if_neg h18]
  by_cases h19 : s.context = "contacting_support" ∧ t = "sales_inquiry"
  · rw [if_pos h19, if_pos h19]
  rw [if_neg h19, if_neg h19]
  by_cases h20 : s.context = "contacting_support" ∧ t = "technical_support"
  · rw [if_pos h20, if_pos h20]
  rw [if_neg h20, if_neg h20]
  by_cases h21 : t = "track_order"
  · rw [if_pos h21, if_pos h21]
  rw [if_neg h21, if_neg h21]
  by_cases h22 : s.context = "tracking_order"
  · exact absurd h22 h
  rw [if_neg h22, if_neg h22]

/-- Incrementing the quantity of the first matching entry keeps the list of
product ids unchanged. -/
theorem incFirst_ids (c : List CartItem) (pid : String) :
    cartIds (incFirst c pid) = cartIds c := by
  induction c with
  | nil => rfl
  | cons i rest ih =>
    unfold incFirst
    split
    · simp [cartIds]
    · simp [cartIds] at ih ⊢
      exact ih

/-- The add-to-cart update preserves distinctness of cart product ids. -/
theorem addToCart_nodup (c : List CartItem) (p : Product)
    (h : (cartIds c).Nodup) : (cartIds (addToCart c p)).Nodup := by
  unfold addToCart
  split
  · rw [incFirst_ids]; exact h
  · rename_i hfind
    have hall : ∀ i ∈ c, ¬(i.id = p.id) := by
      intro i hi
      have := List.find?_eq_none.1 hfind i hi
      simpa using this
    simp [cartIds, List.nodup_append]
    exact ⟨h, hall⟩

/-- Every dialog step preserves distinctness of the cart product ids. -/
theorem handle_cart_nodup (o : Oracle) (s : Session) (t : String)
    (h : (cartIds s.cart).Nodup) : (cartIds (handle o s t).1.cart).Nodup := by
  unfold handle
  by_cases h1 : t = "reset" ∨ t = "restart"
  · rw [if_pos h1]
    exact h
  rw [if_neg h1]
  by_cases h2 : greetingHit t = true ∨ t = "main_menu" ∨ s.context = "welcome"
  · rw [if_pos h2]
    exact h
  rw [if_neg h2]
  by_cases h3 : t = "browse_products"
  · rw [if_pos h3]
    exact h
  rw [if_neg h3]
  by_cases h4 : s.context = "browsing_categories" ∧ jsStartsWith t "category_" = true
  · rw [if_pos h4]
    exact h
  rw [if_neg h4]
  by_cases h5 : s.context = "browsing_products" ∧ jsStartsWith t "product_" = true ∧ (findProduct (dropStr t 8)).isSome = true
  · rw [if_pos h5]
    exact h
  rw [if_neg h5]
  by_cases h6 : s.context = "browsing_products" ∧ jsStartsWith t "product_" = false ∧ t = "back_to_categories"
  · rw [if_pos h6]
    exact h
  rw [if_neg h6]
  by_cases h7 : s.context = "viewing_product" ∧ t = "add_to_cart" ∧ s.lastProductViewed.getD "" ≠ "" ∧ (findProduct (s.lastProductViewed.getD "")).isSome = true
  · rw [if_pos h7]
    exact addToCart_nodup _ _ h
  rw [if_neg h7]
  by_cases h8 : s.context = "viewing_product" ∧ t = "request_quote"
  · rw [if_pos h8]
    exact h
  rw [if_neg h8]
  by_cases h9 : s.context = "viewing_product" ∧ t = "back_to_products"
  · rw [if_pos h9]
    exact h
  rw [if_neg h9]
  by_cases h10 : s.context = "viewing_product" ∧ t = "view_cart"
  · rw [if_pos h10]
    exact h
  rw [if_neg h10]
  by_cases h11 : t = "view_cart"
  · rw [if_pos h11]
    exact h
  rw [if_neg h11]
  by_cases h12 : t = "checkout"
  · rw [if_pos h12]
    split <;> exact h
  rw [if_neg h12]
  by_cases h13 : t = "clear_cart"
  · rw [if_pos h13]
    exact List.nodup_nil
  rw [if_neg h13]
  by_cases h14 : t = "continue_shopping"
  · rw [if_pos h14]
    exact h
  rw [if_neg h14]
  by_cases h15 : t = "search_products"
  · rw [if_pos h15]
    exact h
  rw [if_neg h15]
  by_cases h16 : s.context = "searching"
  · rw [if_pos h16]
    split <;> exact h
  rw [if_neg h16]
  by_cases h17 : directGuard t = true ∧ (directFilter t).length > 0
  · rw [if_pos h17]
    exact h
  rw [if_neg h17]
  by_cases h18 : t = "contact_support"
  · rw [if_pos h18]
    exact h
  rw [if_neg h18]
  by_cases h19 : s.context = "contacting_support" ∧ t = "sales_inquiry"
  · rw [if_pos h19]
    exact h
  rw [if_neg h19]
  by_cases h20 : s.context = "contacting_support" ∧ t = "technical_support"
  · rw [if_pos h20]
    exact h
  rw [if_neg h20]
  by_cases h21 : t = "track_order"
  · rw [if_pos h21]
    exact h
  rw [if_neg h21]
  by_cases h22 : s.context = "tracking_order"
  · rw [if_pos h22]
    exact h
  rw [if_neg h22]
  by_cases h23 : t = "request_quote"
  · rw [if_pos h23]
    exact h
  rw [if_neg h23]
  by_cases h24 : s.context = "welcome" ∨ s.context = ""
  · rw [if_pos h24]
    exact h
  rw [if_neg h24]
  exact h


/-- Distinctness of cart ids is preserved along any event sequence. -/
theorem runEvents_cart_nodup (evs : List (Oracle × Inbound)) (s : Session)
    (h : (cartIds s.cart).Nodup) : (cartIds (runEvents evs s).cart).Nodup := by
  induction evs generalizing s with
  | nil => exact h
  | cons e rest ih =>
    exact ih _ (handle_cart_nodup e.1 s (normalize e.2) h)

/-! ## Claims -/

/-- C1: starting from a fresh session, after any sequence of inbound events
the cart never contains two entries with the same product id: the
add-to-cart branch either increments the first existing entry for the
viewed product or appends a fresh entry with quantity 1, and no other
branch adds cart entries. -/
theorem claim1_cart_ids_nodup (evs : List (Oracle × Inbound)) :
    (cartIds (runEvents evs initialSession).cart).Nodup :=
  runEvents_cart_nodup evs initialSession List.nodup_nil

/-- C6: a `reset` or `restart` token always moves the session to the
`welcome` state and leaves cart, selected category and last viewed product
untouched, answering with the reset notice and the welcome menu. -/
theorem claim6_reset_frame (o : Oracle) (s : Session) (t : String)
    (h : t = "reset" ∨ t = "restart") :
    (handle o s t).1.context = "welcome" ∧
    (handle o s t).1.cart = s.cart ∧
    (handle o s t).1.currentCategory = s.currentCategory ∧
    (handle o s t).1.lastProductViewed = s.lastProductViewed ∧
    (handle o s t).2 =
      Out.text "I've reset our conversation. How can I help you today?" :: sendWelcomeMenu := by
  unfold handle
  rw [if_pos h]
  exact ⟨rfl, rfl, rfl, rfl, rfl⟩

/-- Witness for C6 at the concrete token `reset` from a searching session. -/
theorem claim6_reset_frame_witness :
    ("reset" = "reset" ∨ "reset" = "restart") ∧
    ((handle o0 ⟨"searching", [], none, none⟩ "reset").1.context = "welcome" ∧
     (handle o0 ⟨"searching", [], none, none⟩ "reset").1.cart = [] ∧
     (handle o0 ⟨"searching", [], none, none⟩ "reset").1.currentCategory = none ∧
     (handle o0 ⟨"searching", [], none, none⟩ "reset").1.lastProductViewed = none ∧
     (handle o0 ⟨"searching", [], none, none⟩ "reset").2 =
       Out.text "I've reset our conversation. How can I help you today?" :: sendWelcomeMenu) :=
  ⟨Or.inl rfl, claim6_reset_frame o0 ⟨"searching", [], none, none⟩ "reset" (Or.inl rfl)⟩

/-- A non-tracking timed session used for the C9 counterexample. -/
def st0 : SessionT := ⟨⟨"requesting_quote", [], none, none⟩, 5⟩

/-- A selection-free inbound text event used for the C9 counterexample. -/
def m0 : Inbound := ⟨some "browse_products", none, none⟩

/-- C9 counterexample: two runs of the same non-tracking event at different
clock readings yield different resulting sessions, because
`lastInteraction` is set to the current time on every inbound event; so the
resulting session state is not identical across runs even outside the
order-tracking state. -/
theorem claim9_counterexample :
    st0.context ≠ "tracking_order" ∧
    (handleTimed ⟨0, "Processing", "Mon Jan 01 2024"⟩ st0 m0).1 ≠
      (handleTimed ⟨1, "Processing", "Mon Jan 01 2024"⟩ st0 m0).1 := by
  decide

/-- C9 amended: outside the order-tracking state the outbound messages and
the whole resulting session apart from `lastInteractionTime` are determined
by the session and the event alone; the stub oracle (clock, fabricated
status, fabricated delivery date) influences nothing else. -/
theorem claim9_deterministic (o1 o2 : Oracle) (st : SessionT) (m : Inbound)
    (h : st.context ≠ "tracking_order") :
    (handleTimed o1 st m).2 = (handleTimed o2 st m).2 ∧
    (handleTimed o1 st m).1.toSession = (handleTimed o2 st m).1.toSession := by
  have e := handle_oracle_irrel o1 o2 st.toSession (normalize m) h
  constructor
  · show (handle o1 st.toSession (normalize m)).2 = (handle o2 st.toSession (normalize m)).2
    rw [e]
  · show (handle o1 st.toSession (normalize m)).1 = (handle o2 st.toSession (normalize m)).1
    rw [e]

/-- Witness for C9 amended: two different oracles at a concrete
non-tracking session and event. -/
theorem claim9_deterministic_witness :
    st0.context ≠ "tracking_order" ∧
    ((handleTimed o0 st0 m0).2 = (handleTimed ⟨7, "Shipped", "Tue Feb 02 2024"⟩ st0 m0).2 ∧
     (handleTimed o0 st0 m0).1.toSession =
       (handleTimed ⟨7, "Shipped", "Tue Feb 02 2024"⟩ st0 m0).1.toSession) :=
  ⟨by decide, claim9_deterministic o0 ⟨7, "Shipped", "Tue Feb 02 2024"⟩ st0 m0 (by decide)⟩

/-- C10: any free-text event whose lowercased body contains `hi`, `hello`
or `start` as a substring (and is not the reset command, which is checked
first) is answered with the main welcome menu and no state-specific rule
applies: the session is returned unchanged, from every state other than
`welcome` (the hypothesis on the state mirrors the claim; the greeting
branch in fact fires from every state). -/
theorem claim10_greeting_swallows (o : Oracle) (s : Session) (body : String)
    (_hw : s.context ≠ "welcome")
    (h1 : lcStr body ≠ "reset") (h2 : lcStr body ≠ "restart")
    (hg : greetingHit (lcStr body) = true) :
    handleInbound o s ⟨some body, none, none⟩ = (s, sendWelcomeMenu) := by
  have hlc : lcStr body ≠ "" := by
    intro e
    rw [e] at hg
    exact absurd hg (by decide)
  have hn : normalize ⟨some body, none, none⟩ = lcStr body := by
    unfold normalize jsOrStr
    simp [hlc]
  unfold handleInbound
  rw [hn]
  unfold handle
  rw [if_neg (by rintro (e | e) <;> [exact h1 e; exact h2 e]),
      if_pos (Or.inl hg)]

/-- Witness for C10: the word `white` (containing `hi`), typed while the
session is in the searching state, produces the welcome menu instead of
being used as a search query. -/
theorem claim10_greeting_swallows_witness :
    (⟨"searching", [], none, none⟩ : Session).context ≠ "welcome" ∧
    handleInbound o0 ⟨"searching", [], none, none⟩ ⟨some "white", none, none⟩ =
      (⟨"searching", [], none, none⟩, sendWelcomeMenu) :=
  ⟨by decide,
   claim10_greeting_swallows o0 ⟨"searching", [], none, none⟩ "white"
     (by decide) (by decide) (by decide) (by decide)⟩


/-- A session sitting in the searching state with an empty cart. -/
def sSearch : Session := ⟨"searching", [], none, none⟩

/-- C3 counterexample: in the Searching-state path the empty query matches
every product (JS `includes` with an empty needle is always true), so the
handler announces 10 hits instead of an empty result set. -/
theorem claim3_counterexample :
    searchingFilter "" = products ∧ products.length = 10 ∧
    (handle o0 sSearch "").2.head? =
      some (Out.text "Found 10 products matching your search:") := by
  decide

/-- C3 amended: the empty (untrimmed) query matches every product in the
Searching-state path, never none; the fallback direct-search path is simply
skipped for empty text because its guard requires a non-empty message. -/
theorem claim3_empty_query :
    searchingFilter "" = products ∧ directGuard "" = false := by
  decide

/-- C4 counterexample: the query `fastness` occurs in no product name, type
or CAS number, yet the Searching-state path matches products through their
`description` field, so matching is not restricted to name/type/cas. -/
theorem claim4_counterexample :
    products.filter (fun p =>
      jsIncludes (lcStr p.name) "fastness" || jsIncludes (lcStr p.type) "fastness" ||
      (p.cas != "" && jsIncludes p.cas "fastness")) = [] ∧
    searchingFilter "fastness" ≠ [] ∧
    (handle o0 sSearch "fastness").2.head? =
      some (Out.text "Found 4 products matching your search:") := by
  decide

/-- C4 amended: the Searching-state filter matches a record iff its name,
type or (nonempty) description contains the query, and the fallback direct
filter iff its name, type or (nonempty, not lowercased) CAS number does;
queries arriving as text are lowercased first, so `REACTIVE` is processed
exactly like `reactive`. -/
theorem claim4_search_fields (p : Product) (q : String) :
    (p ∈ searchingFilter q ↔ p ∈ products ∧
      (jsIncludes (lcStr p.name) q = true ∨ jsIncludes (lcStr p.type) q = true ∨
       (p.description ≠ "" ∧ jsIncludes (lcStr p.description) q = true))) ∧
    (p ∈ directFilter q ↔ p ∈ products ∧
      (jsIncludes (lcStr p.name) q = true ∨ jsIncludes (lcStr p.type) q = true ∨
       (p.cas ≠ "" ∧ jsIncludes p.cas q = true))) ∧
    (∀ (o : Oracle) (s : Session),
      handleInbound o s ⟨some "REACTIVE", none, none⟩ =
        handleInbound o s ⟨some "reactive", none, none⟩) := by
  refine ⟨?_, ?_, ?_⟩
  · simp [searchingFilter, List.mem_filter, Bool.or_eq_true, Bool.and_eq_true,
      bne_iff_ne, and_assoc, or_assoc]
  · simp [directFilter, List.mem_filter, Bool.or_eq_true, Bool.and_eq_true,
      bne_iff_ne, and_assoc, or_assoc]
  · intro o s
    unfold handleInbound
    have e : normalize ⟨some "REACTIVE", none, none⟩ = normalize ⟨some "reactive", none, none⟩ := by
      decide
    rw [e]

/-- A viewing-product session with an empty cart and a viewed product. -/
def sView : Session := ⟨"viewing_product", [], some "reactive", some "dye-001"⟩

/-- A viewing-product session holding one cart entry. -/
def sCart : Session :=
  ⟨"viewing_product", [⟨"dye-001", "Reactive Red 120", 1250, 1⟩], some "reactive", some "dye-001"⟩

/-- C8 counterexample: the handler itself emits a list message with an
11-row section (10 capped search results plus the appended main-menu row)
and a button prompt with 4 buttons (three actions plus `view_cart` after
add-to-cart), so the claimed limits of 10 rows and 3 buttons are exceeded. -/
theorem claim8_counterexample :
    (∃ m ∈ (handle o0 sSearch "").2, Out.maxRows m = 11) ∧
    (∃ m ∈ (handle o0 sView "add_to_cart").2, Out.btnCount m = 4) ∧ 10 < 11 ∧ 3 < 4 := by
  decide

/-- Each category key of the fixed catalog matches at most 3 products. -/
theorem byCategory_len_le (k : String) :
    (products.filter (fun p => p.category == k)).length ≤ 3 := by
  by_cases h1 : k = "reactive"
  · subst h1; decide
  by_cases h2 : k = "direct"
  · subst h2; decide
  by_cases h3 : k = "acid"
  · subst h3; decide
  by_cases h4 : k = "intermediate"
  · subst h4; decide
  have he : products.filter (fun p => p.category == k) = [] := by
    rw [List.filter_eq_nil_iff]
    intro p hp
    fin_cases hp <;> simp [beq_iff_eq] <;>
      first
      | exact fun e => h1 e.symm
      | exact fun e => h2 e.symm
      | exact fun e => h3 e.symm
      | exact fun e => h4 e.symm
  rw [he]
  decide

/-- Every message of the per-category product list stays within 10 rows
and 3 buttons: a category matches at most 3 products, plus the back row. -/
theorem sendProductListByCategory_limits (c : Option String) :
    ∀ m ∈ sendProductListByCategory c, Out.maxRows m ≤ 10 ∧ Out.btnCount m ≤ 3 := by
  intro m hm
  cases c with
  | none =>
    fin_cases hm <;> decide
  | some k =>
    rcases hG : getProductsByCategory (some k) with _ | ⟨p0, rest⟩
    · have e : sendProductListByCategory (some k) =
          Out.text "No products found in this category." :: sendCategoryMenu := by
        unfold sendProductListByCategory
        rw [hG]
      rw [e] at hm
      fin_cases hm <;> decide
    · have hlen : (p0 :: rest).length ≤ 3 := by
        rw [← hG]
        exact byCategory_len_le k
      have e : sendProductListByCategory (some k) =
          [.list p0.type "Select a product to view details:"
            [⟨"Products",
              ((p0 :: rest).map (fun p =>
                (⟨"product_" ++ p.id, p.name,
                  p.type ++ " - " ++ (if p.inStock then "In Stock" else "Out of Stock")⟩ : LRow))) ++
              [⟨"back_to_categories", "Back to Categories", "Return to category list"⟩]⟩]] := by
        unfold sendProductListByCategory
        rw [hG]
      rw [e] at hm
      simp at hm
      subst hm
      constructor
      · simp [Out.maxRows]
        simp at hlen
        omega
      · simp [Out.btnCount]

/-- C8 amended: the search-result list carries `min(results,10) + 1` rows
per section (the slice-to-10 truncation happens before the main-menu row is
appended, so 11 rows are produced at 10 or more results), and the product
action prompt carries 4 buttons when the cart button is requested and 3
otherwise; every other builder respects the limits, for all inputs: the
welcome list has 5 rows, the category list 4, the per-category product
list at most 4 (at most 3 category products plus the back row), and the
product-detail, cart-summary and contact-support prompts at most 3
buttons; truncation is the only overflow handling and nothing throws. -/
theorem claim8_limits (rs : List Product) (b : Bool) (p : Product)
    (s : Session) (c : Option String) :
    ((sendSearchResults rs).map Out.maxRows = [min rs.length 10 + 1]) ∧
    ((sendProductActionButtons b).map Out.btnCount = [if b then 4 else 3]) ∧
    (sendWelcomeMenu.map Out.maxRows = [0, 5] ∧ sendWelcomeMenu.map Out.btnCount = [0, 0]) ∧
    (sendCategoryMenu.map Out.maxRows = [4] ∧ sendCategoryMenu.map Out.btnCount = [0]) ∧
    (∀ m ∈ sendProductDetails p, Out.maxRows m ≤ 10 ∧ Out.btnCount m ≤ 3) ∧
    (∀ m ∈ sendCartSummary s, Out.maxRows m ≤ 10 ∧ Out.btnCount m ≤ 3) ∧
    (∀ m ∈ sendProductListByCategory c, Out.maxRows m ≤ 10 ∧ Out.btnCount m ≤ 3) ∧
    (∀ m ∈ supportPrompt, Out.maxRows m ≤ 10 ∧ Out.btnCount m ≤ 3) := by
  refine ⟨?_, ?_, ⟨by decide, by decide⟩, ⟨by decide, by decide⟩, ?_, ?_,
    sendProductListByCategory_limits c, by decide⟩
  · unfold sendSearchResults Out.maxRows
    split <;> simp [List.length_take] <;> omega
  · cases b <;> decide
  · intro m hm
    fin_cases hm <;> simp [Out.maxRows, Out.btnCount]
  · intro m hm
    unfold sendCartSummary at hm
    split at hm
    · fin_cases hm <;> decide
    · fin_cases hm <;> simp [Out.maxRows, Out.btnCount]


/-- A requesting-quote session with an empty cart. -/
def sRQ : Session := ⟨"requesting_quote", [], none, none⟩

/-- C5 counterexample: `checkout` with an empty cart from the
requesting-quote state notifies the user but leaves the state at
`requesting_quote` (the code never assigns `welcome`), so the claimed
transition to Welcome does not happen. -/
theorem claim5_counterexample :
    (handle o0 sRQ "checkout").1.context = "requesting_quote" ∧
    "requesting_quote" ≠ "welcome" ∧
    (handle o0 sRQ "checkout").2 =
      Out.text "Your cart is empty. Browse our products to add items to your cart." ::
        sendWelcomeMenu := by
  decide

/-- C5 amended: from every state other than `welcome` (in `welcome` the
greeting catch-all consumes the event first), `checkout` with an empty cart
sends the empty-cart notice plus the welcome menu while leaving the whole
session unchanged, and `checkout` with a non-empty cart moves the state to
`checkout` with the cart unchanged. -/
theorem claim5_checkout (o : Oracle) (s : Session) (hw : s.context ≠ "welcome") :
    (s.cart = [] →
      handle o s "checkout" =
        (s, Out.text "Your cart is empty. Browse our products to add items to your cart." ::
          sendWelcomeMenu)) ∧
    (s.cart ≠ [] →
      handle o s "checkout" =
        ({ s with context := "checkout" },
          [Out.text "Please provide your shipping details (name, address, email) to proceed with your order."])) := by
  have key : handle o s "checkout" =
      if s.cart.length > 0 then
        ({ s with context := "checkout" },
          [Out.text "Please provide your shipping details (name, address, email) to proceed with your order."])
      else
        (s, Out.text "Your cart is empty. Browse our products to add items to your cart." ::
          sendWelcomeMenu) := by
    unfold handle
    rw [if_neg (by decide),
        if_neg (by rintro (e | e | e) <;>
          first | exact absurd e (by decide) | exact hw e),
        if_neg (by decide),
        if_neg (fun hc => absurd hc.2 (by decide)),
        if_neg (fun hc => absurd hc.2.1 (by decide)),
        if_neg (fun hc => absurd hc.2.2 (by decide)),
        if_neg (fun hc => absurd hc.2.1 (by decide)),
        if_neg (fun hc => absurd hc.2 (by decide)),
        if_neg (fun hc => absurd hc.2 (by decide)),
        if_neg (fun hc => absurd hc.2 (by decide)),
        if_neg (by decide),
        if_pos rfl]
  constructor
  · intro hc
    rw [key, hc, if_neg (by decide)]
  · intro hc
    rw [key, if_pos (by simpa using List.length_pos.2 hc)]

/-- Witness for C5 amended at the empty-cart requesting-quote session. -/
theorem claim5_checkout_witness :
    sRQ.context ≠ "welcome" ∧
    handle o0 sRQ "checkout" =
      (sRQ, Out.text "Your cart is empty. Browse our products to add items to your cart." ::
        sendWelcomeMenu) :=
  ⟨by decide, (claim5_checkout o0 sRQ (by decide)).1 rfl⟩


/-- A browsing-categories session with an empty cart. -/
def sBC : Session := ⟨"browsing_categories", [], none, none⟩

/-- C7 counterexample: selecting the empty category `specialty` from the
browsing-categories state emits the no-products notice and the category
list, but the session state becomes `browsing_products` (assigned before
the emptiness check), not `browsing_categories` as claimed. -/
theorem claim7_counterexample :
    getProductsByCategory (some "specialty") = [] ∧
    (handle o0 sBC "category_specialty").1.context = "browsing_products" ∧
    "browsing_products" ≠ "browsing_categories" ∧
    (handle o0 sBC "category_specialty").2 =
      Out.text "No products found in this category." :: sendCategoryMenu := by
  decide

/-- C7 amended: in the browsing-categories state, a `category_<key>`
selection whose key matches no products (and which contains no greeting
substring, since the greeting catch-all runs first) produces the
no-products notice followed by the category list, but the session moves to
`browsing_products` with `currentCategory` set to the key; it does not stay
in `browsing_categories`. -/
theorem claim7_empty_category (o : Oracle) (s : Session) (t : String)
    (hc : s.context = "browsing_categories")
    (hs : jsStartsWith t "category_" = true)
    (hg : greetingHit t = false)
    (he : getProductsByCategory (some (dropStr t 9)) = []) :
    handle o s t =
      ({ s with context := "browsing_products", currentCategory := some (dropStr t 9) },
        Out.text "No products found in this category." :: sendCategoryMenu) := by
  have ne : ∀ a : String, jsStartsWith a "category_" = false → t ≠ a := by
    intro a ha e
    rw [e, ha] at hs
    cases hs
  have n1 : ¬(t = "reset" ∨ t = "restart") := by
    rintro (e | e)
    · exact ne "reset" (by decide) e
    · exact ne "restart" (by decide) e
  have n2 : ¬(greetingHit t = true ∨ t = "main_menu" ∨ s.context = "welcome") := by
    rintro (e | e | e)
    · rw [hg] at e; cases e
    · exact ne "main_menu" (by decide) e
    · rw [hc] at e
      exact absurd e (by decide)
  unfold handle
  rw [if_neg n1, if_neg n2, if_neg (ne "browse_products" (by decide)), if_pos ⟨hc, hs⟩]
  unfold sendProductListByCategory
  rw [he]

/-- Witness for C7 amended at the concrete key `specialty`. -/
theorem claim7_empty_category_witness :
    sBC.context = "browsing_categories" ∧
    handle o0 sBC "category_specialty" =
      ({ sBC with context := "browsing_products", currentCategory := some "specialty" },
        Out.text "No products found in this category." :: sendCategoryMenu) := by
  refine ⟨rfl, ?_⟩
  have e := claim7_empty_category o0 sBC "category_specialty" rfl (by decide) (by decide) (by decide)
  rw [e]
  decide


/-- The cart entry produced by adding `dye-001`. -/
def item1 : CartItem := ⟨"dye-001", "Reactive Red 120", 1250, 1⟩

/-- The session after the first four scenario events when they are actually
processed: viewing `dye-001` in category `reactive` with one cart entry. -/
def sAfter4 : Session := ⟨"viewing_product", [item1], some "reactive", some "dye-001"⟩

/-- C2 counterexample: from a fresh Welcome session every one of the five
scenario events is consumed by the Welcome catch-all (which fires whenever
the state is `welcome`), so the session never changes, the cart stays empty
and the final `view_cart` event is answered with the welcome menu instead
of a cart summary line for Reactive Red 120. -/
theorem claim2_counterexample :
    runStrs [(o0, "browse_products"), (o0, "category_reactive"), (o0, "product_dye-001"),
        (o0, "add_to_cart"), (o0, "view_cart")] initialSession = initialSession ∧
    initialSession.cart = [] ∧
    (handle o0 initialSession "view_cart").2 = sendWelcomeMenu := by
  decide

/-- C2 amended: starting instead from a session in any state other than
`welcome` (with an empty cart and nothing selected), the event sequence
browse_products, category_reactive, product_dye-001, add_to_cart leaves a
cart holding exactly Reactive Red 120 with quantity 1, and the final
view_cart event answers with the one-line summary `1. Reactive Red 120 x 1
= $1250` and total `$1250`. -/
theorem claim2_scenario (o1 o2 o3 o4 o5 : Oracle) (c : String) (hc : c ≠ "welcome") :
    runStrs [(o1, "browse_products"), (o2, "category_reactive"), (o3, "product_dye-001"),
        (o4, "add_to_cart")] ⟨c, [], none, none⟩ = sAfter4 ∧
    handle o5 sAfter4 "view_cart" =
      (sAfter4,
        [Out.text "*Your Cart*\n\n1. Reactive Red 120 x 1 = $1250\n\n*Total: $1250*",
         Out.buttons "Cart Actions" "What would you like to do next?"
           [⟨"checkout", "Checkout"⟩, ⟨"clear_cart", "Clear Cart"⟩,
            ⟨"continue_shopping", "Continue Shopping"⟩]]) := by
  constructor
  · have e1 : (handle o1 ⟨c, [], none, none⟩ "browse_products").1 =
        (⟨"browsing_categories", [], none, none⟩ : Session) := by
      have n2 : ¬(greetingHit "browse_products" = true ∨ "browse_products" = "main_menu" ∨
          (⟨c, [], none, none⟩ : Session).context = "welcome") := by
        rintro (e | e | e)
        · exact absurd e (by decide)
        · exact absurd e (by decide)
        · exact hc e
      unfold handle
      rw [if_neg (by decide), if_neg n2, if_pos rfl]
    have e2 : (handle o2 (⟨"browsing_categories", [], none, none⟩ : Session)
        "category_reactive").1 = (⟨"browsing_products", [], some "reactive", none⟩ : Session) := by
      rw [handle_oracle_irrel o2 o0 ⟨"browsing_categories", [], none, none⟩
        "category_reactive" (by decide)]
      decide
    have e3 : (handle o3 (⟨"browsing_products", [], some "reactive", none⟩ : Session)
        "product_dye-001").1 =
        (⟨"viewing_product", [], some "reactive", some "dye-001"⟩ : Session) := by
      rw [handle_oracle_irrel o3 o0 ⟨"browsing_products", [], some "reactive", none⟩
        "product_dye-001" (by decide)]
      decide
    have e4 : (handle o4 (⟨"viewing_product", [], some "reactive", some "dye-001"⟩ : Session)
        "add_to_cart").1 = sAfter4 := by
      rw [handle_oracle_irrel o4 o0 ⟨"viewing_product", [], some "reactive", some "dye-001"⟩
        "add_to_cart" (by decide)]
      decide
    show (handle o4 (handle o3 (handle o2 (handle o1 ⟨c, [], none, none⟩
      "browse_products").1 "category_reactive").1 "product_dye-001").1 "add_to_cart").1 = sAfter4
    rw [e1, e2, e3, e4]
  · rw [handle_oracle_irrel o5 o0 sAfter4 "view_cart" (by decide)]
    decide

/-- Witness for C2 amended starting from the requesting-quote state. -/
theorem claim2_scenario_witness :
    "requesting_quote" ≠ "welcome" ∧
    (runStrs [(o0, "browse_products"), (o0, "category_reactive"), (o0, "product_dye-001"),
        (o0, "add_to_cart")] ⟨"requesting_quote", [], none, none⟩ = sAfter4 ∧
     handle o0 sAfter4 "view_cart" =
       (sAfter4,
         [Out.text "*Your Cart*\n\n1. Reactive Red 120 x 1 = $1250\n\n*Total: $1250*",
          Out.buttons "Cart Actions" "What would you like to do next?"
            [⟨"checkout", "Checkout"⟩, ⟨"clear_cart", "Clear Cart"⟩,
             ⟨"continue_shopping", "Continue Shopping"⟩]])) :=
  ⟨by decide, claim2_scenario o0 o0 o0 o0 o0 "requesting_quote" (by decide)⟩

end Dyes
